import Mathlib

/-!
Shallow embedding of `src/reapy/core/track/send.py` (class `Send`).

Python integers are modelled as `Int`:
* `a << n` is `a * 2 ^ n`;
* `a >> n` is the arithmetic shift, i.e. floor division by `2 ^ n`
  (`Int.fdiv`);
* `a % m` for positive `m` agrees with Euclidean remainder (Lean's `%` on
  `Int`);
* `a | b` is bitwise or on arbitrary-precision two's-complement integers
  (`Int.lor`).

Host parameter values are modelled as integers: the host stores doubles,
but every value the embedded code inspects arithmetically is an integer
(the MIDI flags pass through `int(...)`), and the identity/frame claims do
not depend on the numeric type of the stored values.  Fallible steps
(Python `KeyError`, `assert`) are modelled with `Option`.
-/

namespace ReapySend

/-- Python `a << n` on unbounded ints. -/
def pyShl (a : Int) (n : Nat) : Int := a * 2 ^ n

/-- Python `a >> n` on unbounded ints: arithmetic shift, floor division by
`2 ^ n`. -/
def pyShr (a : Int) (n : Nat) : Int := Int.fdiv a (2 ^ n)

/-- Python `a % m`; the source only uses positive `m`, where Python's result
agrees with Euclidean remainder. -/
def pyMod (a m : Int) : Int := a % m

/-- Python `a | b` on unbounded ints (two's complement). -/
def pyOr (a b : Int) : Int := Int.lor a b

/-- `pyShr` as Euclidean division (the divisor `2 ^ n` is positive). -/
theorem pyShr_eq (a : Int) (n : Nat) : pyShr a n = a / 2 ^ n :=
  Int.fdiv_eq_ediv a (by positivity)

theorem int_lor_zero (x : Int) : Int.lor x 0 = x := by
  cases x with
  | ofNat m =>
    show Int.lor (Int.ofNat m) (Int.ofNat 0) = Int.ofNat m
    simp [Int.lor]
  | negSucc m =>
    show Int.lor (Int.negSucc m) (Int.ofNat 0) = Int.negSucc m
    simp [Int.lor, Nat.ldiff]

theorem int_lor_comm (x y : Int) : Int.lor x y = Int.lor y x := by
  cases x <;> cases y <;> simp [Int.lor, Nat.lor_comm, Nat.land_comm]

theorem int_zero_lor (x : Int) : Int.lor 0 x = x := by
  rw [int_lor_comm, int_lor_zero]

theorem int_lor_nonneg {x y : Int} (hx : 0 ≤ x) (hy : 0 ≤ y) :
    0 ≤ Int.lor x y := by
  obtain ⟨m, rfl⟩ := Int.eq_ofNat_of_zero_le hx
  obtain ⟨n, rfl⟩ := Int.eq_ofNat_of_zero_le hy
  show (0:Int) ≤ Int.ofNat (m ||| n)
  exact Int.ofNat_nonneg _

theorem int_bodd_eq_false_of_two_dvd {x : Int} (h : (2:Int) ∣ x) :
    Int.bodd x = false := by
  have h1 := Int.bodd_add_div2 x
  obtain ⟨c, hc⟩ := h
  cases hb : Int.bodd x with
  | false => rfl
  | true => rw [hb] at h1; simp at h1; omega

/-- If `x` only has bits at positions `≥ k` and `0 ≤ B < 2 ^ k`, then
bitwise or of `x` and `B` is addition (`x` may be negative). -/
theorem int_lor_high_low : ∀ (k : Nat) (x B : Int),
    ((2:Int) ^ k) ∣ x → 0 ≤ B → B < 2 ^ k → Int.lor x B = x + B := by
  intro k
  induction k with
  | zero =>
    intro x B _ hB0 hBk
    have hB : B = 0 := by simp at hBk; omega
    subst hB
    rw [int_lor_zero, add_zero]
  | succ k ih =>
    intro x B hx hB0 hBk
    have hx2 : (2:Int) ∣ x := by
      obtain ⟨c, hc⟩ := hx
      exact ⟨2 ^ k * c, by rw [hc]; ring⟩
    have hbx : Int.bodd x = false := int_bodd_eq_false_of_two_dvd hx2
    have hdx := Int.bodd_add_div2 x
    have hdB := Int.bodd_add_div2 B
    rw [hbx] at hdx
    simp at hdx
    have key : Int.lor x B =
        Int.bit (Int.bodd B) (Int.lor (Int.div2 x) (Int.div2 B)) := by
      conv_lhs => rw [← Int.bit_decomp x, ← Int.bit_decomp B]
      rw [Int.lor_bit, hbx, Bool.false_or]
    rw [key]
    have hdvd : ((2:Int) ^ k) ∣ Int.div2 x := by
      obtain ⟨c, hc⟩ := hx
      refine ⟨c, ?_⟩
      have h2 : (2:Int) * Int.div2 x = 2 * (2 ^ k * c) := by
        rw [hdx, hc]; ring
      exact mul_left_cancel₀ (by norm_num) h2
    have hcondB : (0:Int) ≤ cond (Int.bodd B) 1 0 ∧
        (cond (Int.bodd B) 1 0 : Int) ≤ 1 := by
      cases Int.bodd B <;> simp
    have hpow : (2:Int) ^ (k+1) = 2 * 2 ^ k := by ring
    rw [hpow] at hBk
    have hrec := ih (Int.div2 x) (Int.div2 B) hdvd (by omega) (by omega)
    rw [hrec, Int.bit_val]
    omega

/-- `x` has bits only at positions `≥ k`, `B` has bits only in `[j, k)` and
`r` has bits only in `[0, j)`: bitwise or of `x + r` and `B` is addition.
No sign constraint on `x`. -/
theorem int_lor_split : ∀ (j : Nat) (k : Nat) (x r B : Int),
    ((2:Int) ^ k) ∣ x → 0 ≤ r → r < 2 ^ j → ((2:Int) ^ j) ∣ B → 0 ≤ B →
    B < 2 ^ k → Int.lor (x + r) B = x + r + B := by
  intro j
  induction j with
  | zero =>
    intro k x r B hx hr0 hrj _ hB0 hBk
    have hr : r = 0 := by simp at hrj; omega
    subst hr
    rw [add_zero, int_lor_high_low k x B hx hB0 hBk]
  | succ j ih =>
    intro k x r B hx hr0 hrj hjB hB0 hBk
    rcases eq_or_ne B 0 with hB | hB
    · subst hB; rw [int_lor_zero, add_zero]
    have hBlow : (2:Int) ^ (j+1) ≤ B := Int.le_of_dvd (by omega) hjB
    have hj2 : (2:Int) ≤ 2 ^ (j+1) := by
      calc (2:Int) = 2 ^ 1 := by norm_num
      _ ≤ 2 ^ (j+1) := by
        apply pow_le_pow_right₀ (by norm_num) (by omega)
    obtain ⟨k', rfl⟩ : ∃ k', k = k' + 1 := by
      cases k with
      | zero => exfalso; simp at hBk; omega
      | succ k' => exact ⟨k', rfl⟩
    have hx2 : (2:Int) ∣ x := by
      obtain ⟨c, hc⟩ := hx
      exact ⟨2 ^ k' * c, by rw [hc]; ring⟩
    have hB2 : (2:Int) ∣ B := by
      obtain ⟨c, hc⟩ := hjB
      exact ⟨2 ^ j * c, by rw [hc]; ring⟩
    have hbB : Int.bodd B = false := int_bodd_eq_false_of_two_dvd hB2
    have hbx : Int.bodd x = false := int_bodd_eq_false_of_two_dvd hx2
    have hbxr : Int.bodd (x + r) = Int.bodd r := by
      rw [Int.bodd_add, hbx]
      simp
    have hdx := Int.bodd_add_div2 x
    have hdr := Int.bodd_add_div2 r
    have hdB := Int.bodd_add_div2 B
    have hdxr := Int.bodd_add_div2 (x + r)
    rw [hbx] at hdx; simp at hdx
    rw [hbB] at hdB; simp at hdB
    rw [hbxr] at hdxr
    have hw : Int.div2 (x + r) = Int.div2 x + Int.div2 r := by
      have h2 : (2:Int) * Int.div2 (x + r) = 2 * (Int.div2 x + Int.div2 r) := by
        omega
      exact mul_left_cancel₀ (by norm_num) h2
    have key : Int.lor (x + r) B =
        Int.bit (Int.bodd r) (Int.lor (Int.div2 x + Int.div2 r) (Int.div2 B)) := by
      conv_lhs => rw [← Int.bit_decomp (x + r), ← Int.bit_decomp B]
      rw [Int.lor_bit, hbB, hbxr, Bool.or_false, hw]
    rw [key]
    have hdvdx : ((2:Int) ^ k') ∣ Int.div2 x := by
      obtain ⟨c, hc⟩ := hx
      refine ⟨c, ?_⟩
      have h2 : (2:Int) * Int.div2 x = 2 * (2 ^ k' * c) := by
        rw [hdx, hc]; ring
      exact mul_left_cancel₀ (by norm_num) h2
    have hdvdB : ((2:Int) ^ j) ∣ Int.div2 B := by
      obtain ⟨c, hc⟩ := hjB
      refine ⟨c, ?_⟩
      have h2 : (2:Int) * Int.div2 B = 2 * (2 ^ j * c) := by
        rw [hdB, hc]; ring
      exact mul_left_cancel₀ (by norm_num) h2
    have hcondr : (0:Int) ≤ cond (Int.bodd r) 1 0 ∧
        (cond (Int.bodd r) 1 0 : Int) ≤ 1 := by
      cases Int.bodd r <;> simp
    have hpj : (2:Int) ^ (j+1) = 2 * 2 ^ j := by ring
    have hpk : (2:Int) ^ (k'+1) = 2 * 2 ^ k' := by ring
    rw [hpj] at hrj
    rw [hpk] at hBk
    have hrec := ih k' (Int.div2 x) (Int.div2 r) (Int.div2 B)
      hdvdx (by omega) (by omega) hdvdB (by omega) (by omega)
    rw [hrec, Int.bit_val]
    omega

/-- The reserved sentinel value of `I_MIDIFLAGS`, `send.py` lines 210 and
231 (`0b1111111100000000011111`, decimal 4177951). -/
def midiSentinel : Int := 0b1111111100000000011111

theorem midiSentinel_eq : midiSentinel = 4177951 := rfl

/-- The getter `Send._midi_flags_unpacked` (`send.py` lines 207-221),
as a function of the integer read from `I_MIDIFLAGS`: unpacking into
`((src_bus, src_ch), (dst_bus, dst_ch))`. -/
def decodeMidiFlags (flags : Int) : (Int × Int) × (Int × Int) :=
  if flags = midiSentinel then ((-1, -1), (-1, -1))
  else
    let ch_flags := pyMod flags 0b10000000000
    let bus_flags := pyShr flags 14
    let src_bus := pyMod bus_flags 0b100000
    let dst_bus := pyShr bus_flags 8
    let src_ch := pyMod ch_flags 0b100000
    let dst_ch := pyShr ch_flags 5
    ((src_bus, src_ch), (dst_bus, dst_ch))

/-- The shift-and-or packing in the setter `Send._midi_flags_unpacked`
(`send.py` lines 225-229), before the sentinel check:
`(src_bus << 14) | src_ch | (dst_bus << 22) | (dst_ch << 5)`
(Python's `|` is left associative). -/
def midiFlagsRaw (in_tuple : (Int × Int) × (Int × Int)) : Int :=
  pyOr (pyOr (pyOr (pyShl in_tuple.1.1 14) in_tuple.1.2) (pyShl in_tuple.2.1 22))
    (pyShl in_tuple.2.2 5)

/-- The setter `Send._midi_flags_unpacked` (`send.py` lines 223-232): the
integer written to `I_MIDIFLAGS`. -/
def encodeMidiFlags (in_tuple : (Int × Int) × (Int × Int)) : Int :=
  if midiFlagsRaw in_tuple = -1 then midiSentinel else midiFlagsRaw in_tuple

/-- The generic packing as plain arithmetic, for in-range channels, any
destination bus, and a source bus below `2 ^ 8` (its field is the 8 bits
between the two shifts 14 and 22). -/
theorem midiFlagsRaw_eq (s_b s_c d_b d_c : Int)
    (hsb0 : 0 ≤ s_b) (hsb : s_b < 256) (hsc0 : 0 ≤ s_c) (hsc : s_c < 32)
    (hdc0 : 0 ≤ d_c) (hdc : d_c < 32) :
    midiFlagsRaw ((s_b, s_c), (d_b, d_c)) =
      d_b * 4194304 + s_b * 16384 + d_c * 32 + s_c := by
  have h1 : Int.lor (s_b * 2 ^ 14) s_c = s_b * 2 ^ 14 + s_c := by
    have h := int_lor_split 0 14 (s_b * 2 ^ 14) 0 s_c ⟨s_b, by ring⟩ le_rfl
      (by norm_num) ⟨s_c, by ring⟩ hsc0 (by norm_num; omega)
    simpa using h
  have h2 : Int.lor (d_b * 2 ^ 22) (s_b * 2 ^ 14 + s_c) =
      d_b * 2 ^ 22 + (s_b * 2 ^ 14 + s_c) := by
    have h := int_lor_split 0 22 (d_b * 2 ^ 22) 0 (s_b * 2 ^ 14 + s_c)
      ⟨d_b, by ring⟩ le_rfl (by norm_num) ⟨s_b * 2 ^ 14 + s_c, by ring⟩
      (add_nonneg (mul_nonneg hsb0 (by norm_num)) hsc0) (by norm_num; omega)
    simpa using h
  have h3 : Int.lor (Int.lor (s_b * 2 ^ 14) s_c) (d_b * 2 ^ 22) =
      d_b * 2 ^ 22 + s_b * 2 ^ 14 + s_c := by
    rw [h1, int_lor_comm, h2]
    ring
  have h4 : Int.lor (Int.lor (Int.lor (s_b * 2 ^ 14) s_c) (d_b * 2 ^ 22))
      (d_c * 2 ^ 5) = d_b * 2 ^ 22 + s_b * 2 ^ 14 + d_c * 2 ^ 5 + s_c := by
    rw [h3]
    have h := int_lor_split 5 10 (d_b * 2 ^ 22 + s_b * 2 ^ 14) s_c (d_c * 2 ^ 5)
      ⟨d_b * 2 ^ 12 + s_b * 2 ^ 4, by ring⟩ hsc0 (by norm_num; omega)
      ⟨d_c, by ring⟩ (mul_nonneg hdc0 (by norm_num)) (by norm_num; omega)
    rw [h]
    ring
  simp only [midiFlagsRaw, pyOr, pyShl]
  rw [h4]
  norm_num

/-- The getter on a non-sentinel value, as plain Euclidean arithmetic. -/
theorem decodeMidiFlags_of_ne (flags : Int) (h : flags ≠ midiSentinel) :
    decodeMidiFlags flags =
      ((flags / 16384 % 32, flags % 1024 % 32),
        (flags / 16384 / 256, flags % 1024 / 32)) := by
  simp only [decodeMidiFlags, if_neg h, pyMod, pyShr_eq]
  norm_num

/-- Round trip through the packed integer, for in-range channels, a source
bus below `2 ^ 8` and any destination bus: the getter truncates the source
bus to its low 5 bits. -/
theorem decode_encode_sum (s_b s_c d_b d_c : Int)
    (hsb0 : 0 ≤ s_b) (hsb : s_b < 256) (hsc0 : 0 ≤ s_c) (hsc : s_c < 32)
    (hdc0 : 0 ≤ d_c) (hdc : d_c < 32)
    (hns : d_b * 4194304 + s_b * 16384 + d_c * 32 + s_c ≠ midiSentinel) :
    decodeMidiFlags (encodeMidiFlags ((s_b, s_c), (d_b, d_c))) =
      ((s_b % 32, s_c), (d_b, d_c)) := by
  have hraw := midiFlagsRaw_eq s_b s_c d_b d_c hsb0 hsb hsc0 hsc hdc0 hdc
  have hne1 : midiFlagsRaw ((s_b, s_c), (d_b, d_c)) ≠ -1 := by
    rw [hraw]; omega
  have hflags : encodeMidiFlags ((s_b, s_c), (d_b, d_c)) =
      d_b * 4194304 + s_b * 16384 + d_c * 32 + s_c := by
    unfold encodeMidiFlags
    rw [if_neg hne1, hraw]
  rw [hflags, decodeMidiFlags_of_ne _ hns]
  simp only [Prod.mk.injEq]
  rw [midiSentinel_eq] at hns
  omega

/-- The `Send` value object: the three identity fields assigned in
`Send.__init__` (`send.py` lines 23-30). -/
structure Send where
  index : Int
  track_id : String
  type : String

/-- The owning track, as `__init__` needs it: only its `id`. -/
structure TrackRef where
  id : String

/-- `Send.__init__` (`send.py` lines 23-30); `none` models the assertion
failure when neither `track` nor `track_id` is supplied. -/
def sendInit (track : Option TrackRef) (index : Int) (track_id : Option String)
    (type : String) : Option Send :=
  match track_id with
  | some tid => some ⟨index, tid, type⟩
  | none =>
    match track with
    | none => none
    | some tr => some ⟨index, tr.id, type⟩

/-- The dict lookup in `Send._get_int_type` (`send.py` lines 33-38):
`none` models the `KeyError` on an unknown kind string. -/
def sendTypesLookup (type : String) : Option Int :=
  if type = "hardware" then some 1
  else if type = "send" then some 0
  else if type = "receive" then some (-1)
  else none

/-- `Send._get_int_type` (`send.py` lines 32-39). -/
def get_int_type (s : Send) : Option Int := sendTypesLookup s.type

/-- The opaque host: the parameter table keyed by (track id, kind code,
position index, parameter name), the removed sends, and whether the SWS
extension is available. -/
structure HostState where
  params : String → Int → Int → String → Int
  removed : List (String × Int × Int)
  sws : Bool

/-- `Send.get_info` (`send.py` lines 73-111): `GetTrackSendInfo_Value`. -/
def get_info (s : Send) (h : HostState) (param_name : String) : Option Int :=
  (get_int_type s).map fun t => h.params s.track_id t s.index param_name

/-- `Send.set_info` (`send.py` lines 318-342): `SetTrackSendInfo_Value`. -/
def set_info (s : Send) (h : HostState) (param_name : String) (value : Int) :
    Option HostState :=
  (get_int_type s).map fun t =>
    ⟨fun tid ty idx p =>
        if tid = s.track_id ∧ ty = t ∧ idx = s.index ∧ p = param_name then value
        else h.params tid ty idx p,
      h.removed, h.sws⟩

/-- `Send.delete` (`send.py` lines 49-53): `RemoveTrackSend`. -/
def deleteSend (s : Send) (h : HostState) : Option HostState :=
  (get_int_type s).map fun t =>
    ⟨h.params, (s.track_id, t, s.index) :: h.removed, h.sws⟩

/-- `Send.get_sws_info` (`send.py` lines 113-155), guarded by
`depends_on_sws`. -/
def get_sws_info (s : Send) (h : HostState) (param_name : String) :
    Option Int :=
  if h.sws then get_info s h param_name else none

/-- `Send.set_sws_info` (`send.py` lines 344-349), guarded by
`depends_on_sws`. -/
def set_sws_info (s : Send) (h : HostState) (param_name : String)
    (value : Int) : Option HostState :=
  if h.sws then set_info s h param_name value else none

/-- The property `Send._midi_flags_unpacked` read over the host (`send.py`
lines 207-221). -/
def midi_flags_unpacked_get (s : Send) (h : HostState) :
    Option ((Int × Int) × (Int × Int)) :=
  (get_info s h "I_MIDIFLAGS").map decodeMidiFlags

/-- The property `Send._midi_flags_unpacked` written over the host
(`send.py` lines 223-232). -/
def midi_flags_unpacked_set (s : Send) (h : HostState)
    (in_tuple : (Int × Int) × (Int × Int)) : Option HostState :=
  set_info s h "I_MIDIFLAGS" (encodeMidiFlags in_tuple)

/-- `Send.midi_source` getter (`send.py` lines 234-243). -/
def midi_source_get (s : Send) (h : HostState) : Option (Int × Int) :=
  (midi_flags_unpacked_get s h).map Prod.fst

/-- `Send.midi_source` setter (`send.py` lines 245-249): read-modify-write
keeping the current destination. -/
def midi_source_set (s : Send) (h : HostState) (source : Int × Int) :
    Option HostState :=
  (midi_flags_unpacked_get s h).bind fun cur =>
    midi_flags_unpacked_set s h (source, cur.2)

/-- `Send.midi_dest` getter (`send.py` lines 251-260). -/
def midi_dest_get (s : Send) (h : HostState) : Option (Int × Int) :=
  (midi_flags_unpacked_get s h).map Prod.snd

/-- `Send.midi_dest` setter (`send.py` lines 262-266): read-modify-write
keeping the current source. -/
def midi_dest_set (s : Send) (h : HostState) (dest : Int × Int) :
    Option HostState :=
  (midi_flags_unpacked_get s h).bind fun cur =>
    midi_flags_unpacked_set s h (cur.1, dest)

/-- The operations on a `Send` object after construction (`send.py`:
methods and property accesses of the class). Boolean arguments are their
host encodings 0/1. -/
inductive SendOp where
  | deleteOp
  | getInfoOp (param_name : String)
  | setInfoOp (param_name : String) (value : Int)
  | getSwsInfoOp (param_name : String)
  | setSwsInfoOp (param_name : String) (value : Int)
  | isMonoGet
  | isMonoSet (mono : Int)
  | isMutedGet
  | isMutedSet (muted : Int)
  | isPhaseFlippedGet
  | isPhaseFlippedSet (flipped : Int)
  | flipPhaseOp
  | midiSourceGet
  | midiSourceSet (source : Int × Int)
  | midiDestGet
  | midiDestSet (dest : Int × Int)
  | muteOp
  | unmuteOp
  | panGet
  | panSet (pan : Int)
  | volumeGet
  | volumeSet (volume : Int)
  | sendToMonoOutputOp (ch : Int)
  | sendToStereoOutputOp (ch : Int)
  | destTrackGet
  | sourceTrackGet

/-- Effect of each `Send` method or property access on the host. Each
branch is the translation of the corresponding method body; none of the
Python bodies rebinds `self.index`, `self.track_id` or `self.type`. -/
def stateEffect : SendOp → Send → HostState → Option HostState
  | .deleteOp, s, h => deleteSend s h
  | .getInfoOp p, s, h => (get_info s h p).map fun _ => h
  | .setInfoOp p v, s, h => set_info s h p v
  | .getSwsInfoOp p, s, h => (get_sws_info s h p).map fun _ => h
  | .setSwsInfoOp p v, s, h => set_sws_info s h p v
  | .isMonoGet, s, h => (get_info s h "B_MONO").map fun _ => h
  | .isMonoSet v, s, h => set_info s h "B_MONO" v
  | .isMutedGet, s, h => (get_info s h "B_MUTE").map fun _ => h
  | .isMutedSet v, s, h => set_info s h "B_MUTE" v
  | .isPhaseFlippedGet, s, h => (get_info s h "B_PHASE").map fun _ => h
  | .isPhaseFlippedSet v, s, h => set_info s h "B_PHASE" v
  | .flipPhaseOp, s, h =>
    (get_info s h "B_PHASE").bind fun v =>
      set_info s h "B_PHASE" (if v = 0 then 1 else 0)
  | .midiSourceGet, s, h => (midi_source_get s h).map fun _ => h
  | .midiSourceSet src, s, h => midi_source_set s h src
  | .midiDestGet, s, h => (midi_dest_get s h).map fun _ => h
  | .midiDestSet dst, s, h => midi_dest_set s h dst
  | .muteOp, s, h => set_info s h "B_MUTE" 1
  | .unmuteOp, s, h => set_info s h "B_MUTE" 0
  | .panGet, s, h => (get_info s h "D_PAN").map fun _ => h
  | .panSet v, s, h => set_info s h "D_PAN" v
  | .volumeGet, s, h => (get_info s h "D_VOL").map fun _ => h
  | .volumeSet v, s, h => set_info s h "D_VOL" v
  | .sendToMonoOutputOp ch, s, h => set_info s h "I_DSTCHAN" (ch + 1024)
  | .sendToStereoOutputOp ch, s, h => set_info s h "I_DSTCHAN" ch
  | .destTrackGet, s, h => (get_info s h "P_DESTTRACK").map fun _ => h
  | .sourceTrackGet, s, h => (get_info s h "P_SRCTRACK").map fun _ => h

/-- Running one operation: the (unchanged) value object and the new host. -/
def runOp (op : SendOp) (s : Send) (h : HostState) :
    Option (Send × HostState) :=
  (stateEffect op s h).map fun h' => (s, h')

/-- A concrete send used to instantiate hypotheses of the theorems below. -/
def sampleSend : Send := ⟨0, "track0", "send"⟩

/-- A concrete host whose every parameter reads 0. -/
def sampleHost : HostState := ⟨fun _ _ _ _ => 0, [], true⟩

/-- The host after `sampleSend.midi_source = (1, 2)` on `sampleHost`. -/
def sampleHostS : HostState :=
  (midi_source_set sampleSend sampleHost (1, 2)).getD sampleHost

/-- The host after `sampleSend.midi_dest = (3, 4)` on `sampleHost`. -/
def sampleHostD : HostState :=
  (midi_dest_set sampleSend sampleHost (3, 4)).getD sampleHost

/-- C1 fails as stated: at source bus 32 (inside the claim's 0..255 range)
the getter keeps only the low 5 bits of the source-bus field, so the round
trip loses the source bus. -/
theorem c1_counterexample :
    decodeMidiFlags (encodeMidiFlags ((32, 0), (0, 0))) ≠ ((32, 0), (0, 0)) := by
  decide

/-- C1 (amended): the round trip `decode (encode t) = t` holds for source
bus 0..31, source channel 0..31, destination bus 0..255 and destination
channel 0..31; with a source bus of 32..255 the getter's 5-bit mask
truncates it (see `c1_counterexample`). -/
theorem c1_roundtrip_amended (src_bus src_channel dst_bus dst_channel : Int)
    (h1 : 0 ≤ src_bus) (h2 : src_bus < 32)
    (h3 : 0 ≤ src_channel) (h4 : src_channel < 32)
    (_h5 : 0 ≤ dst_bus) (_h6 : dst_bus < 256)
    (h7 : 0 ≤ dst_channel) (h8 : dst_channel < 32) :
    decodeMidiFlags
        (encodeMidiFlags ((src_bus, src_channel), (dst_bus, dst_channel))) =
      ((src_bus, src_channel), (dst_bus, dst_channel)) := by
  have hns : dst_bus * 4194304 + src_bus * 16384 + dst_channel * 32 +
      src_channel ≠ midiSentinel := by
    rw [midiSentinel_eq]
    omega
  have h := decode_encode_sum src_bus src_channel dst_bus dst_channel h1
    (by omega) h3 h4 h7 h8 hns
  rw [h, Int.emod_eq_of_lt h1 h2]

/-- Witness for `c1_roundtrip_amended` at (1, 2, 3, 4). -/
theorem c1_roundtrip_amended_witness :
    (0:Int) ≤ 1 ∧ (1:Int) < 32 ∧
      decodeMidiFlags (encodeMidiFlags ((1, 2), (3, 4))) = ((1, 2), (3, 4)) :=
  ⟨by norm_num, by norm_num,
    c1_roundtrip_amended 1 2 3 4 (by norm_num) (by norm_num) (by norm_num)
      (by norm_num) (by norm_num) (by norm_num) (by norm_num) (by norm_num)⟩

/-- C2 fails as stated: Python's signed bitwise or gives -1 whenever the
un-shifted source channel alone is -1; at ((0, -1), (0, 0)) the sentinel
branch is taken though not all four components are -1. -/
theorem c2_counterexample :
    midiFlagsRaw ((0, -1), (0, 0)) = -1 ∧
      encodeMidiFlags ((0, -1), (0, 0)) = midiSentinel ∧
      ¬ (((0, -1), (0, 0)) =
        (((-1, -1), (-1, -1)) : (Int × Int) × (Int × Int))) := by
  have hraw : midiFlagsRaw ((0, -1), (0, 0)) = -1 := by
    simp only [midiFlagsRaw, pyOr, pyShl, zero_mul]
    rw [int_zero_lor, int_lor_zero, int_lor_zero]
  refine ⟨hraw, ?_, by decide⟩
  unfold encodeMidiFlags
  rw [hraw]
  rfl

/-- C2 (amended): if all four components are -1 the combined or is -1, so
the sentinel branch is taken; the converse holds on the tuples the getter
can produce — all four components nonnegative (the or is then nonnegative)
or all four equal to -1 — but not on arbitrary integer tuples
(`c2_counterexample`). -/
theorem c2_sentinel_branch_amended (s_b s_c d_b d_c : Int)
    (h : (0 ≤ s_b ∧ 0 ≤ s_c ∧ 0 ≤ d_b ∧ 0 ≤ d_c) ∨
      (s_b = -1 ∧ s_c = -1 ∧ d_b = -1 ∧ d_c = -1)) :
    midiFlagsRaw ((s_b, s_c), (d_b, d_c)) = -1 ↔
      (s_b = -1 ∧ s_c = -1 ∧ d_b = -1 ∧ d_c = -1) := by
  rcases h with ⟨h1, h2, h3, h4⟩ | ⟨rfl, rfl, rfl, rfl⟩
  · constructor
    · intro hraw
      exfalso
      have hge : (0:Int) ≤ midiFlagsRaw ((s_b, s_c), (d_b, d_c)) := by
        simp only [midiFlagsRaw, pyOr, pyShl]
        have p14 : (0:Int) ≤ s_b * 2 ^ 14 := mul_nonneg h1 (by norm_num)
        have p22 : (0:Int) ≤ d_b * 2 ^ 22 := mul_nonneg h3 (by norm_num)
        have p5 : (0:Int) ≤ d_c * 2 ^ 5 := mul_nonneg h4 (by norm_num)
        exact int_lor_nonneg (int_lor_nonneg (int_lor_nonneg p14 h2) p22) p5
      omega
    · rintro ⟨rfl, -, -, -⟩
      exact absurd h1 (by norm_num)
  · decide

/-- Witness for `c2_sentinel_branch_amended` at the all-(-1) tuple. -/
theorem c2_sentinel_branch_amended_witness :
    (((0:Int) ≤ -1 ∧ (0:Int) ≤ -1 ∧ (0:Int) ≤ -1 ∧ (0:Int) ≤ -1) ∨
      ((-1:Int) = -1 ∧ (-1:Int) = -1 ∧ (-1:Int) = -1 ∧ (-1:Int) = -1)) ∧
      (midiFlagsRaw ((-1, -1), (-1, -1)) = -1 ↔
        ((-1:Int) = -1 ∧ (-1:Int) = -1 ∧ (-1:Int) = -1 ∧ (-1:Int) = -1)) :=
  ⟨Or.inr (by norm_num),
    c2_sentinel_branch_amended (-1) (-1) (-1) (-1) (Or.inr (by norm_num))⟩

/-- C3 fails as stated: the sentinel constant 0b1111111100000000011111 is
decimal 4177951, not 16646687 as the claim renders it, so encoding the
all-(-1) tuple does not give 16646687. -/
theorem c3_counterexample :
    encodeMidiFlags ((-1, -1), (-1, -1)) ≠ 16646687 := by decide

/-- C3 (amended): encoding the all-(-1) tuple yields exactly the constant
0b1111111100000000011111 (decimal 4177951), decoding that constant yields
exactly ((-1, -1), (-1, -1)), and the sentinel tuple is a fixed point of
the round trip. -/
theorem c3_sentinel_fixed_point :
    encodeMidiFlags ((-1, -1), (-1, -1)) = 0b1111111100000000011111 ∧
      (0b1111111100000000011111 : Int) = 4177951 ∧
      decodeMidiFlags 0b1111111100000000011111 = ((-1, -1), (-1, -1)) ∧
      decodeMidiFlags (encodeMidiFlags ((-1, -1), (-1, -1))) =
        ((-1, -1), (-1, -1)) := by
  refine ⟨by decide, by decide, by decide, by decide⟩

/-- C4: the kind mapping used for every host call is exactly
send 0, hardware 1, receive -1, and any other kind string fails with a
lookup error (modelled by `none`) rather than returning a default code. -/
theorem c4_kind_mapping :
    sendTypesLookup "send" = some 0 ∧ sendTypesLookup "hardware" = some 1 ∧
      sendTypesLookup "receive" = some (-1) ∧
      ∀ type : String, type ≠ "send" → type ≠ "hardware" → type ≠ "receive" →
        sendTypesLookup type = none := by
  refine ⟨rfl, rfl, rfl, fun t h1 h2 h3 => ?_⟩
  unfold sendTypesLookup
  rw [if_neg h2, if_neg h1, if_neg h3]

/-- Witness for `c4_kind_mapping` at the unknown kind "frobnicate". -/
theorem c4_kind_mapping_witness :
    ("frobnicate" : String) ≠ "send" ∧ sendTypesLookup "frobnicate" = none :=
  ⟨by decide,
    c4_kind_mapping.2.2.2 "frobnicate" (by decide) (by decide) (by decide)⟩

/-- C5: the concrete codec values: encoding ((2, 5), (3, 0)) gives
(2 << 14) | 5 | (3 << 22) | (0 << 5) = 12615685, and decoding 12615685
returns ((2, 5), (3, 0)). -/
theorem c5_concrete_codec :
    encodeMidiFlags ((2, 5), (3, 0)) = 12615685 ∧
      midiFlagsRaw ((2, 5), (3, 0)) = 12615685 ∧
      decodeMidiFlags 12615685 = ((2, 5), (3, 0)) := by
  refine ⟨by decide, by decide, by decide⟩

/-- C6: construction requires at least one of `track` or `track_id`:
with both `none` it fails with the assertion error; with either one
supplied it succeeds and sets `track_id` (from `track.id` when only
`track` is given). -/
theorem c6_construction :
    (∀ (index : Int) (type : String), sendInit none index none type = none) ∧
      (∀ (tr : TrackRef) (index : Int) (type : String),
        sendInit (some tr) index none type = some ⟨index, tr.id, type⟩) ∧
      (∀ (track : Option TrackRef) (index : Int) (tid : String) (type : String),
        sendInit track index (some tid) type = some ⟨index, tid, type⟩) :=
  ⟨fun _ _ => rfl, fun _ _ _ => rfl, fun _ _ _ _ => rfl⟩

/-- C7: the boundary decode: a zero flags value decodes to bus 0 and
channel 0 for both endpoints. -/
theorem c7_decode_zero : decodeMidiFlags 0 = ((0, 0), (0, 0)) := by decide

/-- C8: decode is total: every integer flags value (also outside the
expected bit ranges) unpacks to a result tuple; the getter has no error
branch. -/
theorem c8_decode_total (flags : Int) :
    ∃ src_bus src_ch dst_bus dst_ch : Int,
      decodeMidiFlags flags = ((src_bus, src_ch), (dst_bus, dst_ch)) :=
  ⟨(decodeMidiFlags flags).1.1, (decodeMidiFlags flags).1.2,
    (decodeMidiFlags flags).2.1, (decodeMidiFlags flags).2.2, rfl⟩

/-- C9: send identity is immutable after construction: every operation
(delete, get_info, set_info, mute, unmute, flip_phase, and all property
getters and setters) leaves index, track_id and type unchanged; only
`__init__` assigns them. -/
theorem c9_identity_immutable (op : SendOp) (s s' : Send) (h h' : HostState)
    (hrun : runOp op s h = some (s', h')) :
    s'.index = s.index ∧ s'.track_id = s.track_id ∧ s'.type = s.type := by
  unfold runOp at hrun
  rcases hx : stateEffect op s h with _ | h2
  · rw [hx] at hrun
    simp at hrun
  · rw [hx] at hrun
    simp only [Option.map_some', Option.some.injEq, Prod.mk.injEq] at hrun
    obtain ⟨h3, -⟩ := hrun
    rw [← h3]
    exact ⟨rfl, rfl, rfl⟩

/-- Witness for `c9_identity_immutable`: reading D_VOL on a sample send. -/
theorem c9_identity_immutable_witness :
    runOp (SendOp.getInfoOp "D_VOL") sampleSend sampleHost =
        some (sampleSend, sampleHost) ∧
      sampleSend.index = sampleSend.index ∧
      sampleSend.track_id = sampleSend.track_id ∧
      sampleSend.type = sampleSend.type :=
  ⟨rfl, c9_identity_immutable (SendOp.getInfoOp "D_VOL") sampleSend sampleSend
    sampleHost sampleHost rfl⟩

/-- The host after assigning midi_source = (255, 31) on `sampleHost`. -/
def counterHostS : HostState :=
  (midi_source_set sampleSend sampleHost (255, 31)).getD sampleHost

/-- C10 fails as stated: on a host whose current flags value is 0 (not the
sentinel), assigning midi_source = (255, 31) writes exactly the sentinel
pattern 0b1111111100000000011111, so the decoded midi_dest changes from
(0, 0) to (-1, -1). -/
theorem c10_counterexample :
    get_info sampleSend sampleHost "I_MIDIFLAGS" = some 0 ∧
      (0 : Int) ≠ midiSentinel ∧
      midi_source_set sampleSend sampleHost (255, 31) = some counterHostS ∧
      midi_dest_get sampleSend counterHostS ≠ midi_dest_get sampleSend sampleHost := by
  refine ⟨rfl, by decide, rfl, by decide⟩

/-- C10 (amended): setting one MIDI endpoint preserves the other for every
current non-sentinel host flags value and endpoint values in range (source
bus 0..255, destination bus nonnegative, channels 0..31), provided the
newly written flags value is not the sentinel pattern; without that proviso
the claim is false (`c10_counterexample`). -/
theorem c10_frame_amended (s : Send) (h hS hD : HostState) (flags : Int)
    (source dest : Int × Int)
    (hget : get_info s h "I_MIDIFLAGS" = some flags)
    (hflags : flags ≠ midiSentinel)
    (hsb0 : 0 ≤ source.1) (hsb : source.1 < 256)
    (hsc0 : 0 ≤ source.2) (hsc : source.2 < 32)
    (hdb0 : 0 ≤ dest.1) (hdc0 : 0 ≤ dest.2) (hdc : dest.2 < 32)
    (hSet : midi_source_set s h source = some hS)
    (hNoSent : encodeMidiFlags (source, (decodeMidiFlags flags).2) ≠ midiSentinel)
    (hDSet : midi_dest_set s h dest = some hD) :
    midi_dest_get s hS = midi_dest_get s h ∧
      midi_source_get s hD = midi_source_get s h := by
  obtain ⟨sb, sc⟩ := source
  obtain ⟨db, dc⟩ := dest
  dsimp only at hsb0 hsb hsc0 hsc hdb0 hdc0 hdc hNoSent
  obtain ⟨t, ht⟩ : ∃ t, get_int_type s = some t := by
    unfold get_info at hget
    rcases hx : get_int_type s with _ | t
    · rw [hx] at hget
      simp at hget
    · exact ⟨t, rfl⟩
  have hval : h.params s.track_id t s.index "I_MIDIFLAGS" = flags := by
    unfold get_info at hget
    rw [ht] at hget
    simpa using hget
  have hmfu : midi_flags_unpacked_get s h = some (decodeMidiFlags flags) := by
    unfold midi_flags_unpacked_get get_info
    rw [ht]
    simp [hval]
  have hdecomp := decodeMidiFlags_of_ne flags hflags
  have hd2 : (decodeMidiFlags flags).2 =
      (flags / 16384 / 256, flags % 1024 / 32) := by
    rw [hdecomp]
  have hd1 : (decodeMidiFlags flags).1 =
      (flags / 16384 % 32, flags % 1024 % 32) := by
    rw [hdecomp]
  have hSset : midi_flags_unpacked_set s h ((sb, sc), (decodeMidiFlags flags).2) =
      some hS := by
    unfold midi_source_set at hSet
    rw [hmfu] at hSet
    simpa using hSet
  have hSparams : hS.params s.track_id t s.index "I_MIDIFLAGS" =
      encodeMidiFlags ((sb, sc), (decodeMidiFlags flags).2) := by
    unfold midi_flags_unpacked_set set_info at hSset
    rw [ht] at hSset
    simp only [Option.map_some', Option.some.injEq] at hSset
    rw [← hSset]
    simp
  have hDset2 : midi_flags_unpacked_set s h ((decodeMidiFlags flags).1, (db, dc)) =
      some hD := by
    unfold midi_dest_set at hDSet
    rw [hmfu] at hDSet
    simpa using hDSet
  have hDparams : hD.params s.track_id t s.index "I_MIDIFLAGS" =
      encodeMidiFlags ((decodeMidiFlags flags).1, (db, dc)) := by
    unfold midi_flags_unpacked_set set_info at hDset2
    rw [ht] at hDset2
    simp only [Option.map_some', Option.some.injEq] at hDset2
    rw [← hDset2]
    simp
  have hReadS : midi_dest_get s hS =
      some ((decodeMidiFlags
        (encodeMidiFlags ((sb, sc), (decodeMidiFlags flags).2))).2) := by
    unfold midi_dest_get midi_flags_unpacked_get get_info
    rw [ht]
    simp [hSparams]
  have hReadD : midi_source_get s hD =
      some ((decodeMidiFlags
        (encodeMidiFlags ((decodeMidiFlags flags).1, (db, dc)))).1) := by
    unfold midi_source_get midi_flags_unpacked_get get_info
    rw [ht]
    simp [hDparams]
  have hReadS0 : midi_dest_get s h = some ((decodeMidiFlags flags).2) := by
    unfold midi_dest_get
    rw [hmfu]
    rfl
  have hReadD0 : midi_source_get s h = some ((decodeMidiFlags flags).1) := by
    unfold midi_source_get
    rw [hmfu]
    rfl
  have hdc0' : (0:Int) ≤ flags % 1024 / 32 := by omega
  have hdc32 : flags % 1024 / 32 < 32 := by omega
  have hraw1 := midiFlagsRaw_eq sb sc (flags / 16384 / 256) (flags % 1024 / 32)
    hsb0 hsb hsc0 hsc hdc0' hdc32
  have hne1 : midiFlagsRaw ((sb, sc), (flags / 16384 / 256, flags % 1024 / 32)) ≠ -1 := by
    rw [hraw1]
    omega
  have henc1 : encodeMidiFlags ((sb, sc), (flags / 16384 / 256, flags % 1024 / 32)) =
      flags / 16384 / 256 * 4194304 + sb * 16384 + flags % 1024 / 32 * 32 + sc := by
    unfold encodeMidiFlags
    rw [if_neg hne1, hraw1]
  have hsum1 : flags / 16384 / 256 * 4194304 + sb * 16384 +
      flags % 1024 / 32 * 32 + sc ≠ midiSentinel := by
    intro hcontra
    apply hNoSent
    rw [hd2, henc1, hcontra]
  have hrt1 := decode_encode_sum sb sc (flags / 16384 / 256) (flags % 1024 / 32)
    hsb0 hsb hsc0 hsc hdc0' hdc32 hsum1
  have hsb0' : (0:Int) ≤ flags / 16384 % 32 := by omega
  have hsb32 : flags / 16384 % 32 < 256 := by omega
  have hsc0' : (0:Int) ≤ flags % 1024 % 32 := by omega
  have hsc32 : flags % 1024 % 32 < 32 := by omega
  have hraw2 := midiFlagsRaw_eq (flags / 16384 % 32) (flags % 1024 % 32) db dc
    hsb0' hsb32 hsc0' hsc32 hdc0 hdc
  have hne2 : midiFlagsRaw ((flags / 16384 % 32, flags % 1024 % 32), (db, dc)) ≠ -1 := by
    rw [hraw2]
    omega
  have hsum2 : db * 4194304 + flags / 16384 % 32 * 16384 + dc * 32 +
      flags % 1024 % 32 ≠ midiSentinel := by
    rw [midiSentinel_eq]
    omega
  have hrt2 := decode_encode_sum (flags / 16384 % 32) (flags % 1024 % 32) db dc
    hsb0' hsb32 hsc0' hsc32 hdc0 hdc hsum2
  constructor
  · rw [hReadS, hReadS0, hd2, hrt1]
  · rw [hReadD, hReadD0, hd1, hrt2]
    have hmm : flags / 16384 % 32 % 32 = flags / 16384 % 32 := by omega
    simp [hmm]

/-- Witness for `c10_frame_amended` on `sampleHost` (flags 0), assigning
midi_source = (1, 2) and midi_dest = (3, 4). -/
theorem c10_frame_amended_witness :
    get_info sampleSend sampleHost "I_MIDIFLAGS" = some 0 ∧
      (midi_dest_get sampleSend sampleHostS = midi_dest_get sampleSend sampleHost ∧
        midi_source_get sampleSend sampleHostD = midi_source_get sampleSend sampleHost) :=
  ⟨rfl,
    c10_frame_amended sampleSend sampleHost sampleHostS sampleHostD 0 (1, 2) (3, 4)
      rfl (by decide) (by decide) (by decide) (by decide) (by decide)
      (by decide) (by decide) (by decide) rfl (by decide) rfl⟩

end ReapySend
